import Mathlib

/-!
Verification of the build-plan compiler in `configure.py` (musl-toolchains).

The Python script is shallowly embedded below.  Python strings become Lean
`String`s; Python string predicates (`startswith`, `endswith`, `in`,
`split`, `lstrip`) are modelled on the underlying character lists;
`os.listdir` / `Path.exists` are modelled by an explicit filesystem oracle
`String → Option (List String)` mapping a directory path to its listing when
the directory exists; `shutil.which` is modelled by an oracle
`String → Bool`.  The `build.ninja` emission (`Args.ninja`) is modelled as a
pure function producing the list of top-level variables, rules, build
statements (with their explicit and implicit dependencies) and default
targets, exactly in the order the script writes them.
-/

namespace MuslToolchains

/-! ## Python string primitives -/

/-- Python `s.startswith(p)`, on the character list of the string. -/
def pyStartsWith (s p : String) : Bool := p.data.isPrefixOf s.data

/-- Python `s.endswith(p)`, on the character list of the string. -/
def pyEndsWith (s p : String) : Bool := p.data.isSuffixOf s.data

/-- Helper for Python `needle in hay`: occurrence of `n` as a contiguous
sublist of `h`. -/
def infixOf (n : List Char) : List Char → Bool
  | [] => n.isEmpty
  | c :: t => n.isPrefixOf (c :: t) || infixOf n t

/-- Python `needle in hay` for strings. -/
def pyContains (hay needle : String) : Bool := infixOf needle.data hay.data

/-- Python truthiness of an `Optional[str]`: `None` and `""` are falsy. -/
def pyTruthy : Option String → Bool
  | none => false
  | some s => !s.isEmpty

/-- Python `s.split(" ")` guarded by truthiness, as used for the
`--binutils-flags` / `--gcc-flags` extra-flag strings. -/
def extraSplit : Option String → List String
  | none => []
  | some s => if s.isEmpty then [] else s.splitOn " "

/-- Python `s.split("-")[0]`: the characters before the first hyphen. -/
def firstComponent (t : String) : String := String.mk (t.data.takeWhile (· ≠ '-'))

/-- Python `s.lstrip("-")`. -/
def lstripDash (s : String) : String := String.mk (s.data.dropWhile (· = '-'))

/-! ## Kernel-architecture resolution (`Args.ninja`, step 11)

The source computes `arch = self.target.split("-")[0]` and then rewrites it
through a chain of `startswith` tests (with a duplicated `s390` branch); a
first component matching no branch is left unchanged. -/

/-- The `if/elif` chain of `Args.ninja` rewriting the first component of the
target triple into the Linux `ARCH=` value.  There is no `else` branch in
the source: an unmatched value falls through unchanged. -/
def archCase (arch : String) : String :=
  if pyStartsWith arch "aarch64" then "arm64"
  else if pyStartsWith arch "arm" then "arm"
  else if pyStartsWith arch "i" && pyEndsWith arch "86" then "x86"
  else if pyStartsWith arch "microblaze" then "microblaze"
  else if pyStartsWith arch "mips" then "mips"
  else if pyStartsWith arch "or1k" then "openrisc"
  else if pyStartsWith arch "powerpc" then "powerpc"
  else if pyStartsWith arch "riscv" then "riscv"
  else if pyStartsWith arch "s390" then "s390"
  else if pyStartsWith arch "s390" then "s390"
  else if pyStartsWith arch "sh" then "sh"
  else if pyStartsWith arch "x86_64" then "x86_64"
  else arch

/-- The `ARCH=` value emitted for a target triple: the arch case analysis
applied to the first hyphen-separated component. -/
def linuxArch (target : String) : String := archCase (firstComponent target)

/-- Modelled from the spec's words (Triple Resolver, `kernelArch` table):
the documented prefix table as an ordered first-match lookup, `none` when no
documented prefix matches.  Used only to compare the documented table with
the source's `archCase`. -/
def kernelArchSpec (arch : String) : Option String :=
  if pyStartsWith arch "aarch64" then some "arm64"
  else if pyStartsWith arch "arm" then some "arm"
  else if pyStartsWith arch "i" && pyEndsWith arch "86" then some "x86"
  else if pyStartsWith arch "microblaze" then some "microblaze"
  else if pyStartsWith arch "mips" then some "mips"
  else if pyStartsWith arch "or1k" then some "openrisc"
  else if pyStartsWith arch "powerpc" then some "powerpc"
  else if pyStartsWith arch "riscv" then some "riscv"
  else if pyStartsWith arch "s390" then some "s390"
  else if pyStartsWith arch "sh" then some "sh"
  else if pyStartsWith arch "x86_64" then some "x86_64"
  else none

theorem archCase_eq_spec_of_match (a k : String) :
    kernelArchSpec a = some k → archCase a = k := by
  unfold kernelArchSpec archCase
  generalize pyStartsWith a "aarch64" = b1
  generalize pyStartsWith a "arm" = b2
  generalize (pyStartsWith a "i" && pyEndsWith a "86") = b3
  generalize pyStartsWith a "microblaze" = b4
  generalize pyStartsWith a "mips" = b5
  generalize pyStartsWith a "or1k" = b6
  generalize pyStartsWith a "powerpc" = b7
  generalize pyStartsWith a "riscv" = b8
  generalize pyStartsWith a "s390" = b9
  generalize pyStartsWith a "sh" = b10
  generalize pyStartsWith a "x86_64" = b11
  cases b1 <;> simp
  cases b2 <;> simp
  cases b3 <;> simp
  cases b4 <;> simp
  cases b5 <;> simp
  cases b6 <;> simp
  cases b7 <;> simp
  cases b8 <;> simp
  cases b9 <;> simp
  cases b10 <;> simp
  cases b11 <;> simp

theorem archCase_id_of_no_match (a : String) :
    kernelArchSpec a = none → archCase a = a := by
  unfold kernelArchSpec archCase
  generalize pyStartsWith a "aarch64" = b1
  generalize pyStartsWith a "arm" = b2
  generalize (pyStartsWith a "i" && pyEndsWith a "86") = b3
  generalize pyStartsWith a "microblaze" = b4
  generalize pyStartsWith a "mips" = b5
  generalize pyStartsWith a "or1k" = b6
  generalize pyStartsWith a "powerpc" = b7
  generalize pyStartsWith a "riscv" = b8
  generalize pyStartsWith a "s390" = b9
  generalize pyStartsWith a "sh" = b10
  generalize pyStartsWith a "x86_64" = b11
  cases b1 <;> simp
  cases b2 <;> simp
  cases b3 <;> simp
  cases b4 <;> simp
  cases b5 <;> simp
  cases b6 <;> simp
  cases b7 <;> simp
  cases b8 <;> simp
  cases b9 <;> simp
  cases b10 <;> simp
  cases b11 <;> simp

/-! ## Configuration (`Args`)

The mutable `Args` object is modelled as an immutable record.  Fields set by
`argparse` keep the parsed values; `make`, `cc`, `cxx` carry the values the
respective methods read at the time they run (`try_get_tools` is modelled as
a pure function below, `Args.ninja` reads the record as-is).  The
environment of the run (filesystem listing, `os.cpu_count`,
`platform.system() == "Windows"`, absolute path of `.`) is part of the
record so that every method stays a pure function. -/

def MUSL_CROSS_MAKE_COMMIT : String := "fe915821b652a7fa37b34a596f47d8e20bc72338"

structure Config where
  noPatches : Bool
  prefixDir : String
  host : Option String
  target : String
  cc : String
  cxx : String
  ccBuild : String
  cxxBuild : String
  ccFlags : Option String
  cxxFlags : Option String
  ldFlags : Option String
  enableCache : Bool
  binutilsFlagsExtra : Option String
  gccFlagsExtra : Option String
  gccWithIsl : Bool
  binutilsVersion : String
  gccVersion : String
  gmpVersion : String
  islVersion : String
  linuxVersion : String
  mpcVersion : String
  mpfrVersion : String
  muslVersion : String
  make : String
  rootDir : String
  cpuCount : Nat
  isWindows : Bool
  fs : String → Option (List String)

/-- Source `Args.is_cross`: `self.host is None`. -/
def is_cross (cfg : Config) : Bool := cfg.host.isNone

/-! ## Flag composition (`Args.__init__`) -/

/-- The hard-coded initial `self.binutils_flags` list. -/
def binutilsBaseFlags : List String :=
  [ "--disable-separate-code",
    "--disable-werror",
    "--target=$target",
    "--prefix=",
    "--libdir=/lib",
    "--disable-multilib",
    "--with-sysroot=/$target",
    "--enable-deterministic-archives" ]

/-- `self.binutils_flags` after `Args.__init__`: base flags, then
`--host=$host` when a (truthy) host was supplied, then the user's extra
binutils flags split on spaces. -/
def binutilsFlags (cfg : Config) : List String :=
  binutilsBaseFlags
    ++ (if pyTruthy cfg.host then ["--host=$host"] else [])
    ++ extraSplit cfg.binutilsFlagsExtra

/-- The hard-coded initial `self.gcc_flags` list. -/
def gccBaseFlags : List String :=
  [ "--enable-languages=c,c++",
    "--disable-bootstrap",
    "--disable-werror",
    "--target=$target",
    "--prefix=",
    "--libdir=/lib",
    "--disable-multilib",
    "--with-sysroot=/$target",
    "--enable-tls",
    "--disable-libmudflap",
    "--disable-libsanitizer",
    "--disable-gnu-indirect-function",
    "--disable-libmpx",
    "--enable-initfini-array",
    "--enable-libstdcxx-time=rt",
    "--with-build-sysroot=$build_sysroot_dir" ]

/-- `self.gcc_flags` after `Args.__init__`, appending in the source's exact
order: base, host flag, fdpic, x32, ppc64, mips, s390x, float ABI, user
extras. -/
def gccFlags (cfg : Config) : List String :=
  gccBaseFlags
    ++ (if pyTruthy cfg.host then ["--host=$host"] else [])
    ++ (if pyContains cfg.target "fdpic" then ["--enable-fdpic"] else [])
    ++ (if pyStartsWith cfg.target "x86_64" && pyEndsWith cfg.target "x32" then
          ["--with-abi=x32"] else [])
    ++ (if pyContains cfg.target "powerpc64" then ["--with-abi=elfv2"] else [])
    ++ (if pyContains cfg.target "mips64" || pyContains cfg.target "mipsisa64" then
          (if pyContains cfg.target "n32" then ["--with-abi=n32"] else ["--with-abi=64"])
        else [])
    ++ (if pyContains cfg.target "s390x" then ["--with-long-double-128"] else [])
    ++ (if pyEndsWith cfg.target "sf" then ["--with-float=soft"]
        else if pyEndsWith cfg.target "hf" then ["--with-float=hard"] else [])
    ++ extraSplit cfg.gccFlagsExtra

/-! ## The ABI descriptor of the Triple Resolver (spec section 4.1)

The descriptor is computed from the same string conditions the source tests
when it appends the architecture-conditional gcc flags. -/

inductive MipsAbiKind where
  | noAbi | n32 | abi64
deriving DecidableEq, Repr

inductive FloatAbiKind where
  | unspecified | soft | hard
deriving DecidableEq, Repr

structure AbiDescriptor where
  wantsFdpic : Bool
  x32Abi : Bool
  ppc64Elfv2 : Bool
  mipsAbi : MipsAbiKind
  s390xLongDouble128 : Bool
  floatAbi : FloatAbiKind
deriving DecidableEq, Repr

/-- The Triple Resolver: the ABI descriptor of a target triple, computed
from the source's string conditions. -/
def resolveTriple (t : String) : AbiDescriptor :=
  { wantsFdpic := pyContains t "fdpic"
    x32Abi := pyStartsWith t "x86_64" && pyEndsWith t "x32"
    ppc64Elfv2 := pyContains t "powerpc64"
    mipsAbi :=
      if pyContains t "mips64" || pyContains t "mipsisa64" then
        (if pyContains t "n32" then .n32 else .abi64)
      else .noAbi
    s390xLongDouble128 := pyContains t "s390x"
    floatAbi :=
      if pyEndsWith t "sf" then .soft
      else if pyEndsWith t "hf" then .hard
      else .unspecified }

/-- The architecture-conditional gcc configure flags derived from an ABI
descriptor, in the fixed order fdpic, x32, ppc64, mips, s390x, float ABI. -/
def archCondFlags (d : AbiDescriptor) : List String :=
  (if d.wantsFdpic then ["--enable-fdpic"] else [])
    ++ (if d.x32Abi then ["--with-abi=x32"] else [])
    ++ (if d.ppc64Elfv2 then ["--with-abi=elfv2"] else [])
    ++ (match d.mipsAbi with
        | .noAbi => []
        | .n32 => ["--with-abi=n32"]
        | .abi64 => ["--with-abi=64"])
    ++ (if d.s390xLongDouble128 then ["--with-long-double-128"] else [])
    ++ (match d.floatAbi with
        | .unspecified => []
        | .soft => ["--with-float=soft"]
        | .hard => ["--with-float=hard"])

/-- Modelled from the spec's words (Flag Composer, section 4.3): gcc flag
composition in the order the spec states it — base flags, then the
architecture-conditional flags, then the host flag, then user extras.  Used
only to compare the documented order with the source's `gccFlags`. -/
def gccFlagsSpecOrder (cfg : Config) : List String :=
  gccBaseFlags
    ++ archCondFlags (resolveTriple cfg.target)
    ++ (if pyTruthy cfg.host then ["--host=$host"] else [])
    ++ extraSplit cfg.gccFlagsExtra

/-! ## Patch catalog (`Patch` class) -/

/-- Source `Patch.__init__`: the deterministic patch directory for a
component name and version. -/
def patchPath (name version : String) : String :=
  "patches/musl-cross-make-" ++ MUSL_CROSS_MAKE_COMMIT ++ "/patches/"
    ++ name ++ "-" ++ version

/-- Source `Patch.exists`: whether the patch directory exists, asked of the
filesystem oracle. -/
def patchExists (fs : String → Option (List String)) (name version : String) : Bool :=
  (fs (patchPath name version)).isSome

/-- Source `Patch.files`: every entry of the directory listing, in listing
order, prefixed with the patch directory path. -/
def patchFiles (fs : String → Option (List String)) (name version : String) : List String :=
  ((fs (patchPath name version)).getD []).map
    (fun i => patchPath name version ++ "/" ++ i)

/-- The `patch_command` value computed for one extract node in `Args.ninja`:
`"true"` by default; when patches are enabled and the patch set exists, a
`patch -p 1` invocation accumulating one `-i` per patch file, reset to
`"true"` when no file was appended. -/
def patchCommand (noPatches : Bool) (fs : String → Option (List String))
    (name version : String) : String :=
  if noPatches then "true"
  else if patchExists fs name version then
    let cmd := (patchFiles fs name version).foldl
      (fun acc f => acc ++ " -i ../../" ++ f) "patch -p 1"
    if cmd = "patch -p 1" then "true" else cmd
  else "true"

/-! ## Tool discovery (`Args.try_get_tools`)

`shutil.which` is modelled by the oracle `which : String → Bool`; every
`Args._exists` probe records the command it looked up, in order, in
`checks`.  The result carries the compiler/make attributes as they stand
after the method returns, plus the accumulated `failed` flag. -/

structure ToolsResult where
  cc : String
  cxx : String
  ccBuild : String
  cxxBuild : String
  make : String
  failed : Bool
  checks : List String
deriving DecidableEq, Repr

/-- Source `Args.try_get_tools`, step by step in the source's order:
build-compiler probes, host-compiler resolution (probing only when a truthy
host is set, else overwriting `cc`/`cxx` with the build compilers), the
optional cache-wrapper selection, the make-family fallback chain, and the
curl/patch/tar probes. -/
def tryGetTools (cfg : Config) (which : String → Bool) : ToolsResult :=
  let failed := !which cfg.ccBuild
  let failed := failed || !which cfg.cxxBuild
  let checks := [cfg.ccBuild, cfg.cxxBuild]
  let hostStep :=
    if pyTruthy cfg.host then
      let h := cfg.host.getD ""
      let cc := lstripDash (cfg.cc.replace "$host" h)
      let cxx := lstripDash (cfg.cxx.replace "$host" h)
      let failed := failed || !which cc
      let failed := failed || !which cxx
      (cc, cxx, failed, checks ++ [cc, cxx])
    else
      (cfg.ccBuild, cfg.cxxBuild, failed, checks)
  let cc := hostStep.1
  let cxx := hostStep.2.1
  let failed := hostStep.2.2.1
  let checks := hostStep.2.2.2
  let cacheStep :=
    if cfg.enableCache then
      if which "ccache" then
        ("ccache " ++ cc, "ccache " ++ cxx,
         "ccache " ++ cfg.ccBuild, "ccache " ++ cfg.cxxBuild,
         checks ++ ["ccache"])
      else if which "sccache" then
        ("sccache " ++ cc, "sccache " ++ cxx,
         "sccache " ++ cfg.ccBuild, "sccache " ++ cfg.cxxBuild,
         checks ++ ["ccache", "sccache"])
      else
        (cc, cxx, cfg.ccBuild, cfg.cxxBuild, checks ++ ["ccache", "sccache"])
    else
      (cc, cxx, cfg.ccBuild, cfg.cxxBuild, checks)
  let cc := cacheStep.1
  let cxx := cacheStep.2.1
  let ccBuild := cacheStep.2.2.1
  let cxxBuild := cacheStep.2.2.2.1
  let checks := cacheStep.2.2.2.2
  let makeStep :=
    if which "make" then ("make", failed, checks ++ ["make"])
    else if which "gmake" then ("gmake", failed, checks ++ ["make", "gmake"])
    else if which "mingw32-make" then
      ("mingw32-make", failed, checks ++ ["make", "gmake", "mingw32-make"])
    else (cfg.make, true, checks ++ ["make", "gmake", "mingw32-make"])
  let mk := makeStep.1
  let failed := makeStep.2.1
  let checks := makeStep.2.2
  let failed := failed || !which "curl"
  let failed := failed || !which "patch"
  let failed := failed || !which "tar"
  { cc := cc, cxx := cxx, ccBuild := ccBuild, cxxBuild := cxxBuild,
    make := mk, failed := failed, checks := checks ++ ["curl", "patch", "tar"] }

/-- The host compiler identifier as resolved by `try_get_tools` before any
cache wrapper: the `$host`-substituted, dash-stripped `--cc` value when a
truthy host is set, else the build compiler. -/
def resolvedCC (cfg : Config) : String :=
  if pyTruthy cfg.host then lstripDash (cfg.cc.replace "$host" (cfg.host.getD ""))
  else cfg.ccBuild

/-- Host C++ counterpart of `resolvedCC`. -/
def resolvedCXX (cfg : Config) : String :=
  if pyTruthy cfg.host then lstripDash (cfg.cxx.replace "$host" (cfg.host.getD ""))
  else cfg.cxxBuild

/-- The probes of the cache-wrapper step: `ccache` always; `sccache` only
when `ccache` is absent. -/
def cacheChecks (which : String → Bool) : List String :=
  if which "ccache" then ["ccache"] else ["ccache", "sccache"]

/-- The probes of the make-family fallback chain. -/
def makeChecks (which : String → Bool) : List String :=
  if which "make" then ["make"]
  else if which "gmake" then ["make", "gmake"]
  else ["make", "gmake", "mingw32-make"]

/-- The full sequence of tool probes `try_get_tools` performs, by phase. -/
def expectedChecks (cfg : Config) (which : String → Bool) : List String :=
  [cfg.ccBuild, cfg.cxxBuild]
    ++ (if pyTruthy cfg.host then [resolvedCC cfg, resolvedCXX cfg] else [])
    ++ (if cfg.enableCache then cacheChecks which else [])
    ++ makeChecks which
    ++ ["curl", "patch", "tar"]

theorem tryGetTools_checks (cfg : Config) (which : String → Bool) :
    (tryGetTools cfg which).checks = expectedChecks cfg which := by
  unfold tryGetTools expectedChecks resolvedCC resolvedCXX cacheChecks makeChecks
  by_cases h1 : pyTruthy cfg.host <;>
    by_cases h2 : cfg.enableCache = true <;>
      by_cases h3 : which "ccache" = true <;>
        by_cases h4 : which "make" = true <;>
          by_cases h5 : which "gmake" = true <;>
            by_cases h6 : which "sccache" = true <;>
              by_cases h7 : which "mingw32-make" = true <;>
                simp [h1, h2, h3, h4, h5, h6, h7]

/-! ## The emitted build plan (`Args.ninja`)

One `writer.build(...)` call becomes one `Node`; `writer.variable` and
`writer.rule` calls become entries of `vars` and `rules`, in the order the
script writes them.  `$`-references inside names and commands are kept
verbatim, exactly as the script leaves them for ninja to substitute. -/

structure Node where
  name : String
  rule : String
  inputs : List String := []
  implicit : List String := []
  pool : Option String := none
  nodeVars : List (String × String) := []
deriving DecidableEq, Repr

structure NinjaFile where
  vars : List (String × String)
  rules : List (String × String)
  builds : List Node
  defaults : List String

/-- The `download_targets` list: binutils, gcc, gmp, isl when enabled, then
linux, mpc, mpfr, musl. -/
def downloadTargets (cfg : Config) : List String :=
  ["binutils", "gcc", "gmp"]
    ++ (if cfg.gccWithIsl then ["isl"] else [])
    ++ ["linux", "mpc", "mpfr", "musl"]

/-- Tarball compression chosen in the `_tarball` variable loop: `gz` for
mpc and musl, `xz` otherwise. -/
def tarballCompression (name : String) : String :=
  if name = "mpc" || name = "musl" then "gz" else "xz"

/-- `make_command` variable: the make tool with job count and the fixed
assignments. -/
def makeCommandVar (cfg : Config) : String :=
  cfg.make ++ " -j " ++ toString cfg.cpuCount
    ++ " MULTILIB_OSDIRNAMES= INFO_DEPS= infodir= ac_cv_prog_lex_root=lex.yy"

/-- `env_vars` variable; the `*_FOR_BUILD` entries are added only when a
host triple is set (`not self.is_cross()`). -/
def envVarsVar (cfg : Config) : String :=
  "CC=\"$cc\" CXX=\"$cxx\" CFLAGS=\"$cc_flags\" CXXFLAGS=\"$cxx_flags\" LDFLAGS=\"$ld_flags\""
    ++ (if is_cross cfg then ""
        else " CC_FOR_BUILD=\"$cc_build\" CXX_FOR_BUILD=\"$cxx_build\"")

/-- One `writer.variable` with an `Optional[str]` value: skipped when the
value is `None` (mirroring `ninja_syntax.Writer.variable`). -/
def optVar (key : String) : Option String → List (String × String)
  | none => []
  | some v => [(key, v)]

/-- Every top-level `writer.variable` call of `Args.ninja`, in source
order.  `binutils_dir`, `gcc_dir` and `musl_dir` are re-assigned later in
the script to the build directories; both assignments appear, in order. -/
def ninjaVariables (cfg : Config) : List (String × String) :=
  [("target", cfg.target)]
    ++ optVar "host" cfg.host
    ++ [("cc", cfg.cc), ("cxx", cfg.cxx)]
    ++ (if is_cross cfg then []
        else [("cc_build", cfg.ccBuild), ("cxx_build", cfg.cxxBuild)])
    ++ optVar "cc_flags" cfg.ccFlags
    ++ optVar "cxx_flags" cfg.cxxFlags
    ++ optVar "ld_flags" cfg.ldFlags
    ++ [("binutils_version", cfg.binutilsVersion),
        ("gcc_version", cfg.gccVersion),
        ("gmp_version", cfg.gmpVersion)]
    ++ (if cfg.gccWithIsl then [("isl_version", cfg.islVersion)] else [])
    ++ [("linux_version", cfg.linuxVersion),
        ("mpc_version", cfg.mpcVersion),
        ("mpfr_version", cfg.mpfrVersion),
        ("musl_version", cfg.muslVersion),
        ("gnu_site", "https://ftpmirror.gnu.org")]
    ++ (if cfg.gccWithIsl then [("isl_site", "https://libisl.sourceforge.io")] else [])
    ++ [("linux_site", "https://cdn.kernel.org/pub/linux/kernel/v6.x"),
        ("musl_site", "https://www.musl-libc.org"),
        ("download_command", "curl -L -o"),
        ("make_command", makeCommandVar cfg),
        ("env_vars", envVarsVar cfg),
        ("root_dir", cfg.rootDir),
        ("build_dir", "build"),
        ("build_sysroot_dir", "$root_dir/$build_dir/sysroot"),
        ("build_targets_dir", "$build_dir/targets"),
        ("download_dir", "downloads"),
        ("install_dir", cfg.prefixDir)]
    ++ (downloadTargets cfg).map (fun n =>
        (n ++ "_tarball",
         "$download_dir/" ++ n ++ "-$" ++ n ++ "_version.tar." ++ tarballCompression n))
    ++ (downloadTargets cfg).map (fun n =>
        (n ++ "_dir", "$build_dir/" ++ n ++ "-$" ++ n ++ "_version"))
    ++ [("binutils_dir", "$build_dir/binutils-build"),
        ("gcc_dir", "$build_dir/gcc-build"),
        ("musl_dir", "$build_dir/musl-build"),
        ("arch", linuxArch cfg.target)]

/-- The `*_FOR_TARGET` assignments passed to the gcc configure command;
present only in cross mode, pinning the freshly built binutils tools. -/
def gccVars (cfg : Config) : List String :=
  if is_cross cfg then
    [ "AR_FOR_TARGET=\"$root_dir/$binutils_dir/binutils/ar\"",
      "AS_FOR_TARGET=\"$root_dir/$binutils_dir/gas/as-new\"",
      "LD_FOR_TARGET=\"$root_dir/$binutils_dir/ld/ld-new\"",
      "NM_FOR_TARGET=\"$root_dir/$binutils_dir/binutils/nm-new\"",
      "OBJCOPY_FOR_TARGET=\"$root_dir/$binutils_dir/binutils/objcopy\"",
      "OBJDUMP_FOR_TARGET=\"$root_dir/$binutils_dir/binutils/objdump\"",
      "RANLIB_FOR_TARGET=\"$root_dir/$binutils_dir/binutils/ranlib\"",
      "READELF_FOR_TARGET=\"$root_dir/$binutils_dir/binutils/readelf\"",
      "STRIP_FOR_TARGET=\"$root_dir/$binutils_dir/binutils/strip-new\"" ]
  else []

/-- The environment assignments preceding the musl configure invocation:
`LIBCC` always; in cross mode `CC` is the in-tree stage-1 `xgcc` (with
`.exe` suffix on Windows) given `-B` into the gcc build tree; otherwise the
installed cross-prefixed compiler name plus `CROSS_COMPILE`. -/
def muslConfigureEnvVars (cfg : Config) : List String :=
  ["LIBCC=\"$root_dir/$gcc_dir/$target/libgcc/libgcc.a\""]
    ++ (if is_cross cfg then
          ["CC=\"$root_dir/$gcc_dir/gcc/xgcc"
            ++ (if cfg.isWindows then ".exe" else "")
            ++ " -B $root_dir/$gcc_dir/gcc\""]
        else
          ["CC=${target}-gcc", "CROSS_COMPILE=${target}-"])

/-- The flags passed to the musl configure script. -/
def muslConfFlags : List String := ["--prefix=", "--host=$target"]

/-- The assignments passed to the musl build make command: the in-tree
binutils `ar`/`ranlib` in cross mode, the cross-prefixed names otherwise. -/
def muslVars (cfg : Config) : List String :=
  if is_cross cfg then
    [ "AR=\"$root_dir/$binutils_dir/binutils/ar\"",
      "RANLIB=\"$root_dir/$binutils_dir/binutils/ranlib\"" ]
  else
    [ "AR=${target}-ar", "RANLIB=${target}-ranlib" ]

/-- Every `writer.rule` of `Args.ninja`, in source order, as (name,
command) pairs; the f-string joins of flag lists are performed here. -/
def ninjaRules (cfg : Config) : List (String × String) :=
  [ ("download-tarball", "$download_command $out $url"),
    ("extract-tar",
     "rm -rf $extracted_dir && tar -C $build_dir -x -$compression -f $in && cd $extracted_dir && $patch_command && touch ../../$out"),
    ("configure-binutils",
     "rm -rf $binutils_dir && mkdir $binutils_dir && cd $binutils_dir && $env_vars ../binutils-$binutils_version/configure "
       ++ String.intercalate " " (binutilsFlags cfg) ++ " && touch ../../$out"),
    ("build-binutils",
     "cd $binutils_dir && $env_vars $make_command all && touch ../../$out"),
    ("install-binutils",
     "cd $binutils_dir && $env_vars $make_command install DESTDIR=$install_dir && touch ../../$out"),
    ("move-directory",
     "rm -rf $dst_dir && mv $src_dir $dst_dir && touch $out"),
    ("configure-gcc",
     "rm -rf $build_sysroot_dir && mkdir -p $build_sysroot_dir/usr/include && rm -rf $gcc_dir && mkdir $gcc_dir && cd $gcc_dir && $env_vars ../gcc-$gcc_version/configure "
       ++ String.intercalate " " (gccFlags cfg) ++ " "
       ++ String.intercalate " " (gccVars cfg) ++ " && touch ../../$out"),
    ("build-gcc-all-gcc",
     "cd $gcc_dir && $env_vars $make_command all-gcc && touch ../../$out"),
    ("configure-musl",
     "rm -rf $musl_dir && mkdir $musl_dir && cd $musl_dir && $env_vars "
       ++ String.intercalate " " (muslConfigureEnvVars cfg)
       ++ " ../musl-$musl_version/configure "
       ++ String.intercalate " " muslConfFlags ++ " && touch ../../$out"),
    ("install-musl-headers-dep",
     "cd $musl_dir && $env_vars $make_command install-headers prefix=/usr DESTDIR=$build_sysroot_dir && touch ../../$out"),
    ("build-gcc-libgcc-static",
     "cd $gcc_dir && $env_vars $make_command enable_shared=no all-target-libgcc && touch ../../$out"),
    ("build-musl",
     "cd $musl_dir && $env_vars $make_command "
       ++ String.intercalate " " (muslVars cfg) ++ " && touch ../../$out"),
    ("install-musl-dep",
     "cd $musl_dir && $env_vars $make_command install prefix=/usr DESTDIR=$build_sysroot_dir && touch ../../$out"),
    ("install-musl",
     "cd $musl_dir && $env_vars $make_command install DESTDIR=$install_dir/$target && touch ../../$out"),
    ("clean-gcc-libgcc-static",
     "cd $gcc_dir && $env_vars $make_command -C $target/libgcc distclean && touch ../../$out"),
    ("build-gcc-libgcc-shared",
     "cd $gcc_dir && $env_vars $make_command enable_shared=yes all-target-libgcc && touch ../../$out"),
    ("build-gcc",
     "cd $gcc_dir && $env_vars $make_command && touch ../../$out"),
    ("install-gcc",
     "cd $gcc_dir && $env_vars $make_command install DESTDIR=$install_dir && touch ../../$out"),
    ("build-linux",
     "cd $linux_dir && $env_vars $make_command mrproper ARCH=$arch && touch ../../$out"),
    ("install-linux",
     "rm -rf $build_dir/linux-build && mkdir $build_dir/linux-build && cd $linux_dir && $env_vars $make_command headers_install O=$root_dir/$build_dir/linux-build ARCH=$arch INSTALL_HDR_PATH=$install_dir/$target && touch ../../$out"),
    ("delete-directory", "rm -rf $in"),
    ("clean-all", "true"),
    ("install-all", "true") ]

/-- One download build statement: the tarball path, built by the
`download-tarball` rule in the console pool with its `url` variable. -/
def dlNode (tarballVar url : String) : Node :=
  { name := tarballVar, rule := "download-tarball", pool := some "console",
    nodeVars := [("url", url)] }

/-- The eight (seven without ISL) individual download `writer.build` calls,
in source order. -/
def downloadNodes (cfg : Config) : List Node :=
  [ dlNode "$binutils_tarball" "$gnu_site/binutils/binutils-$binutils_version.tar.xz",
    dlNode "$gcc_tarball" "$gnu_site/gcc/gcc-$gcc_version/gcc-$gcc_version.tar.xz",
    dlNode "$gmp_tarball" "$gnu_site/gmp/gmp-$gmp_version.tar.xz" ]
    ++ (if cfg.gccWithIsl then
          [dlNode "$isl_tarball" "$isl_site/isl-$isl_version.tar.xz"] else [])
    ++ [ dlNode "$linux_tarball" "$linux_site/linux-$linux_version.tar.xz",
         dlNode "$mpc_tarball" "$gnu_site/mpc/mpc-$mpc_version.tar.gz",
         dlNode "$mpfr_tarball" "$gnu_site/mpfr/mpfr-$mpfr_version.tar.xz",
         dlNode "$musl_tarball" "$musl_site/releases/musl-$musl_version.tar.gz" ]

/-- The `name_version_tuples` list driving the extract loop. -/
def nameVersionTuples (cfg : Config) : List (String × String) :=
  [("binutils", cfg.binutilsVersion), ("gcc", cfg.gccVersion), ("gmp", cfg.gmpVersion)]
    ++ (if cfg.gccWithIsl then [("isl", cfg.islVersion)] else [])
    ++ [("linux", cfg.linuxVersion), ("mpc", cfg.mpcVersion),
        ("mpfr", cfg.mpfrVersion), ("musl", cfg.muslVersion)]

/-- One iteration of the extract loop: the extract build statement for a
component, with its tar `compression` letter (`x` for the gzip tarballs of
mpc and musl, `J` otherwise), extraction directory and patch command. -/
def extractNode (cfg : Config) (nv : String × String) : Node :=
  { name := "$build_targets_dir/extract-" ++ nv.1,
    rule := "extract-tar",
    inputs := ["$" ++ nv.1 ++ "_tarball"],
    nodeVars :=
      [ ("compression", if nv.1 = "mpc" || nv.1 = "musl" then "x" else "J"),
        ("extracted_dir", "$" ++ nv.1 ++ "_dir"),
        ("patch_command", patchCommand cfg.noPatches cfg.fs nv.1 nv.2) ] }

/-- The `move_targets` list: gmp, isl when enabled, mpc, mpfr. -/
def moveTargets (cfg : Config) : List String :=
  ["gmp"] ++ (if cfg.gccWithIsl then ["isl"] else []) ++ ["mpc", "mpfr"]

/-- One relocation build statement, moving a dependency into the gcc source
tree; predecessor is the dependency's own extract node. -/
def moveNode (n : String) : Node :=
  { name := "$build_targets_dir/move-" ++ n,
    rule := "move-directory",
    implicit := ["$build_targets_dir/extract-" ++ n],
    nodeVars := [("src_dir", "$" ++ n ++ "_dir"), ("dst_dir", "$gcc_dir/" ++ n)] }

/-- Every `writer.build` statement of `Args.ninja`, in source order. -/
def ninjaBuilds (cfg : Config) : List Node :=
  downloadNodes cfg
    ++ (nameVersionTuples cfg).map (extractNode cfg)
    ++ [ { name := "$build_targets_dir/configure-binutils", rule := "configure-binutils",
           implicit := ["$build_targets_dir/extract-binutils"], pool := some "console" },
         { name := "$build_targets_dir/build-binutils", rule := "build-binutils",
           implicit := ["$build_targets_dir/configure-binutils"], pool := some "console" },
         { name := "$build_targets_dir/install-binutils", rule := "install-binutils",
           implicit := ["$build_targets_dir/build-binutils"], pool := some "console" } ]
    ++ (moveTargets cfg).map moveNode
    ++ [ { name := "$build_targets_dir/configure-gcc", rule := "configure-gcc",
           implicit := ["$build_targets_dir/extract-gcc"]
             ++ (moveTargets cfg).map (fun n => "$build_targets_dir/move-" ++ n)
             ++ ["$build_targets_dir/build-binutils"],
           pool := some "console" },
         { name := "$build_targets_dir/build-gcc-all-gcc", rule := "build-gcc-all-gcc",
           implicit := ["$build_targets_dir/configure-gcc"], pool := some "console" },
         { name := "$build_targets_dir/configure-musl", rule := "configure-musl",
           implicit := ["$build_targets_dir/extract-musl",
                        "$build_targets_dir/build-gcc-all-gcc"],
           pool := some "console" },
         { name := "$build_targets_dir/install-musl-headers-dep",
           rule := "install-musl-headers-dep",
           implicit := ["$build_targets_dir/configure-musl"], pool := some "console" },
         { name := "$build_targets_dir/build-gcc-libgcc-static",
           rule := "build-gcc-libgcc-static",
           implicit := ["$build_targets_dir/install-musl-headers-dep"],
           pool := some "console" },
         { name := "$build_targets_dir/build-musl", rule := "build-musl",
           implicit := ["$build_targets_dir/build-gcc-libgcc-static"],
           pool := some "console" },
         { name := "$build_targets_dir/install-musl-dep", rule := "install-musl-dep",
           implicit := ["$build_targets_dir/build-musl"], pool := some "console" },
         { name := "$build_targets_dir/install-musl", rule := "install-musl",
           implicit := ["$build_targets_dir/build-musl"], pool := some "console" },
         { name := "$build_targets_dir/clean-gcc-libgcc-static",
           rule := "clean-gcc-libgcc-static",
           implicit := ["$build_targets_dir/install-musl-dep"], pool := some "console" },
         { name := "$build_targets_dir/build-gcc-libgcc-shared",
           rule := "build-gcc-libgcc-shared",
           implicit := ["$build_targets_dir/clean-gcc-libgcc-static"],
           pool := some "console" },
         { name := "$build_targets_dir/build-gcc", rule := "build-gcc",
           implicit := ["$build_targets_dir/build-gcc-libgcc-shared"],
           pool := some "console" },
         { name := "$build_targets_dir/install-gcc", rule := "install-gcc",
           implicit := ["$build_targets_dir/build-gcc"], pool := some "console" },
         { name := "$build_targets_dir/build-linux", rule := "build-linux",
           implicit := ["$build_targets_dir/extract-linux"], pool := some "console" },
         { name := "$build_targets_dir/install-linux", rule := "install-linux",
           implicit := ["$build_targets_dir/build-linux"], pool := some "console" },
         { name := "clean-build", rule := "delete-directory", inputs := ["$build_dir"] },
         { name := "clean-downloads", rule := "delete-directory",
           inputs := ["$download_dir"] },
         { name := "clean", rule := "clean-all",
           implicit := ["clean-build", "clean-downloads"] },
         { name := "install", rule := "install-all",
           implicit := ["$build_targets_dir/install-binutils",
                        "$build_targets_dir/install-gcc",
                        "$build_targets_dir/install-musl",
                        "$build_targets_dir/install-linux"] } ]

/-- The `writer.default` call: the two declared default targets. -/
def ninjaDefaults : List String :=
  ["$build_targets_dir/build-gcc", "$build_targets_dir/build-linux"]

/-- The whole emitted `build.ninja`, assembled from a configuration. -/
def ninja (cfg : Config) : NinjaFile :=
  { vars := ninjaVariables cfg, rules := ninjaRules cfg,
    builds := ninjaBuilds cfg, defaults := ninjaDefaults }

/-! ## Graph queries -/

/-- The build statement of a given output name, if any. -/
def findNode (nf : NinjaFile) (name : String) : Option Node :=
  nf.builds.find? (fun n => n.name == name)

/-- The command of a named rule, if any. -/
def lookupRule (nf : NinjaFile) (name : String) : Option String :=
  (nf.rules.find? (fun r => r.1 == name)).map (fun r => r.2)

/-- The direct predecessors of a node: explicit inputs plus implicit
dependencies. -/
def nodeDeps (n : Node) : List String := n.inputs ++ n.implicit

/-- Direct predecessors of an output name inside a build list (empty for
names that are plain files rather than build outputs). -/
def depsOf (builds : List Node) (name : String) : List String :=
  match builds.find? (fun n => n.name == name) with
  | some n => nodeDeps n
  | none => []

/-- Dependency reachability: `Reaches builds a b` holds when `b` can be
reached from `a` by following zero or more dependency edges (each node to
one of its explicit or implicit predecessors). -/
inductive Reaches (builds : List Node) : String → String → Prop where
  | refl (a : String) : Reaches builds a a
  | step (a b c : String) : Reaches builds a b → c ∈ depsOf builds b →
      Reaches builds a c

/-- A name set is closed under dependency edges: every direct predecessor
of a member is a member. -/
def closedUnderDeps (builds : List Node) (s : List String) : Bool :=
  s.all (fun x => (depsOf builds x).all (fun d => s.contains d))

theorem reaches_mem_of_closed (builds : List Node) (s : List String)
    (hs : closedUnderDeps builds s = true) (a b : String)
    (hr : Reaches builds a b) (ha : a ∈ s) : b ∈ s := by
  induction hr with
  | refl => exact ha
  | step y z _ hd ih =>
      have hall := (List.all_eq_true.mp hs) y ih
      have hz := (List.all_eq_true.mp hall) z hd
      exact List.mem_of_elem_eq_true hz

/-- The kernel-headers subgraph: linux download, extract, mrproper and
headers-install statements. -/
def kernelNodeNames : List String :=
  [ "$linux_tarball", "$build_targets_dir/extract-linux",
    "$build_targets_dir/build-linux", "$build_targets_dir/install-linux" ]

/-- Every compiler (gcc) and C-library (musl) build statement, downloads
and extracts included. -/
def gccMuslNodeNames : List String :=
  [ "$gcc_tarball", "$build_targets_dir/extract-gcc",
    "$build_targets_dir/configure-gcc", "$build_targets_dir/build-gcc-all-gcc",
    "$build_targets_dir/build-gcc-libgcc-static",
    "$build_targets_dir/clean-gcc-libgcc-static",
    "$build_targets_dir/build-gcc-libgcc-shared",
    "$build_targets_dir/build-gcc", "$build_targets_dir/install-gcc",
    "$musl_tarball", "$build_targets_dir/extract-musl",
    "$build_targets_dir/configure-musl",
    "$build_targets_dir/install-musl-headers-dep",
    "$build_targets_dir/build-musl", "$build_targets_dir/install-musl-dep",
    "$build_targets_dir/install-musl" ]

/-- A dependency-closed superset of the gcc/musl nodes: those nodes plus
everything they transitively depend on (binutils chain, relocations,
extracts, tarballs); the isl names are listed so the set is closed for both
values of `gccWithIsl`.  The kernel-headers names deliberately do not
occur. -/
def gccMuslClosureNames : List String :=
  gccMuslNodeNames
    ++ [ "$binutils_tarball", "$build_targets_dir/extract-binutils",
         "$build_targets_dir/configure-binutils", "$build_targets_dir/build-binutils",
         "$gmp_tarball", "$build_targets_dir/extract-gmp", "$build_targets_dir/move-gmp",
         "$isl_tarball", "$build_targets_dir/extract-isl", "$build_targets_dir/move-isl",
         "$mpc_tarball", "$build_targets_dir/extract-mpc", "$build_targets_dir/move-mpc",
         "$mpfr_tarball", "$build_targets_dir/extract-mpfr", "$build_targets_dir/move-mpfr" ]

/-- Names shared by no path: helper combining the two closure certificates
into the independence statement used for the kernel-headers claim. -/
theorem no_cross_paths (builds : List Node)
    (hck : closedUnderDeps builds kernelNodeNames = true)
    (hcg : closedUnderDeps builds gccMuslClosureNames = true) :
    ∀ k ∈ kernelNodeNames, ∀ c ∈ gccMuslNodeNames,
      ¬ Reaches builds k c ∧ ¬ Reaches builds c k := by
  intro k hk c hc
  constructor
  · intro hr
    have hmem : c ∈ kernelNodeNames :=
      reaches_mem_of_closed builds kernelNodeNames hck k c hr hk
    have hdis : ∀ x ∈ gccMuslNodeNames, x ∉ kernelNodeNames := by decide
    exact hdis c hc hmem
  · intro hr
    have hsub : ∀ x ∈ gccMuslNodeNames, x ∈ gccMuslClosureNames := by decide
    have hmem : k ∈ gccMuslClosureNames :=
      reaches_mem_of_closed builds gccMuslClosureNames hcg c k hr (hsub c hc)
    have hdis : ∀ x ∈ kernelNodeNames, x ∉ gccMuslClosureNames := by decide
    exact hdis k hk hmem

/-! ## Concrete configurations used as witnesses -/

/-- Filesystem oracle of a run where no patch directory exists. -/
def emptyFs : String → Option (List String) := fun _ => none

/-- A representative configuration: the `argparse` defaults with target
`arm-linux-musleabihf`, no host, running on a non-Windows machine with an
empty patch bundle. -/
def cfgArm : Config :=
  { noPatches := false, prefixDir := "$root_dir/toolchain", host := none,
    target := "arm-linux-musleabihf", cc := "$host-gcc", cxx := "$host-g++",
    ccBuild := "gcc", cxxBuild := "g++", ccFlags := none, cxxFlags := none,
    ldFlags := none, enableCache := false, binutilsFlagsExtra := none,
    gccFlagsExtra := none, gccWithIsl := false, binutilsVersion := "2.40",
    gccVersion := "13.1.0", gmpVersion := "6.2.1", islVersion := "0.24",
    linuxVersion := "6.3.5", mpcVersion := "1.3.1", mpfrVersion := "4.2.0",
    muslVersion := "1.2.4", make := "make", rootDir := "/work", cpuCount := 8,
    isWindows := false, fs := emptyFs }

/-- `cfgArm` with a target whose first component matches no branch of the
kernel-architecture chain. -/
def cfgLoong : Config := { cfgArm with target := "loongarch64-linux-musl" }

/-- `cfgArm` with a host triple and an fdpic / hard-float target, to
exhibit the gcc flag composition order. -/
def cfgHostFdpic : Config :=
  { cfgArm with host := some "x86_64-linux-gnu",
                target := "arm-fdpic-linux-musleabihf" }

/-- `cfgArm` with the optional ISL dependency enabled. -/
def cfgIsl : Config := { cfgArm with gccWithIsl := true }

/-! ## Claim theorems -/

/-- C1, counterexample.  The claim says a target triple whose first
component matches no documented kernel-architecture prefix makes the
resolver fail rather than produce a `kernelArch` value.  On the code, for
`loongarch64-linux-musl` (no documented prefix matches its first
component), `Args.ninja` still emits an `arch` variable, carrying the first
component unchanged: no error path exists. -/
theorem c1_unmapped_arch_counterexample :
    kernelArchSpec (firstComponent "loongarch64-linux-musl") = none
      ∧ linuxArch "loongarch64-linux-musl" = "loongarch64"
      ∧ (ninja cfgLoong).vars.getLast? = some ("arch", "loongarch64") := by
  exact ⟨rfl, rfl, rfl⟩

/-- C1, amended.  When the first hyphen-separated component of the target
triple matches none of the documented kernel-architecture prefixes, the
resolver does not fail: the emitted `arch` variable is that first component
passed through unchanged. -/
theorem c1_unmapped_arch_passthrough (cfg : Config)
    (h : kernelArchSpec (firstComponent cfg.target) = none) :
    linuxArch cfg.target = firstComponent cfg.target
      ∧ ("arch", firstComponent cfg.target) ∈ (ninja cfg).vars := by
  have h2 : linuxArch cfg.target = firstComponent cfg.target :=
    archCase_id_of_no_match (firstComponent cfg.target) h
  refine ⟨h2, ?_⟩
  show ("arch", firstComponent cfg.target) ∈ ninjaVariables cfg
  rw [← h2]
  unfold ninjaVariables
  simp

/-- C1 witness: the amended claim evaluated at `cfgLoong`. -/
theorem c1_unmapped_arch_passthrough_witness :
    linuxArch cfgLoong.target = firstComponent cfgLoong.target
      ∧ ("arch", firstComponent cfgLoong.target) ∈ (ninja cfgLoong).vars :=
  c1_unmapped_arch_passthrough cfgLoong (by decide)

/-- C4.  For every target triple whose first component matches a documented
prefix (first match wins, case-sensitive, in the documented order, with
`i*86` meaning starts with `i` and ends with `86`), the emitted kernel
architecture equals the table entry. -/
theorem c4_kernel_arch_table (t k : String)
    (h : kernelArchSpec (firstComponent t) = some k) :
    linuxArch t = k :=
  archCase_eq_spec_of_match (firstComponent t) k h

/-- C4 witness: `aarch64-linux-musl` resolves to `arm64` (and not through
the later `arm` branch). -/
theorem c4_kernel_arch_table_witness :
    kernelArchSpec (firstComponent "aarch64-linux-musl") = some "arm64"
      ∧ linuxArch "aarch64-linux-musl" = "arm64" :=
  ⟨by decide, c4_kernel_arch_table "aarch64-linux-musl" "arm64" (by decide)⟩

/-- C2, counterexample.  The claim says the declared default subset is
exactly the final compiler build node and the kernel-headers *install*
node.  On the code, the defaults are `build-gcc` and `build-linux`; the
kernel-headers install node `install-linux` exists in the graph but is not
a default, and the `build-linux` default runs the `mrproper` clean rule,
not the headers-install rule. -/
theorem c2_default_subset_counterexample :
    (ninja cfgArm).defaults
        = ["$build_targets_dir/build-gcc", "$build_targets_dir/build-linux"]
      ∧ (findNode (ninja cfgArm) "$build_targets_dir/install-linux").isSome = true
      ∧ "$build_targets_dir/install-linux" ∉ (ninja cfgArm).defaults
      ∧ (findNode (ninja cfgArm) "$build_targets_dir/build-linux").map Node.rule
        = some "build-linux"
      ∧ lookupRule (ninja cfgArm) "build-linux"
        = some "cd $linux_dir && $env_vars $make_command mrproper ARCH=$arch && touch ../../$out" := by
  exact ⟨rfl, rfl, by decide, rfl, rfl⟩

/-- C2, amended.  For every configuration the declared default subset
consists exactly of the final compiler build node (`build-gcc`) and the
kernel-source clean node (`build-linux`, the `mrproper` step); the
kernel-headers install node exists in the graph but is not part of the
default subset. -/
theorem c2_default_subset (cfg : Config) :
    (ninja cfg).defaults
        = ["$build_targets_dir/build-gcc", "$build_targets_dir/build-linux"]
      ∧ (findNode (ninja cfg) "$build_targets_dir/build-gcc").map Node.rule
        = some "build-gcc"
      ∧ (findNode (ninja cfg) "$build_targets_dir/build-linux").map Node.rule
        = some "build-linux"
      ∧ (findNode (ninja cfg) "$build_targets_dir/install-linux").isSome = true
      ∧ "$build_targets_dir/install-linux" ∉ (ninja cfg).defaults := by
  obtain ⟨f1, f2, f3, f4, f5, f6, f7, f8, f9, f10, f11, f12, f13, f14, f15,
    f16, f17, f18, f19, f20, f21, f22, f23, f24, f25, f26, f27, f28⟩ := cfg
  cases f15 <;>
    exact ⟨rfl, rfl, rfl, rfl,
      by show "$build_targets_dir/install-linux" ∉ ninjaDefaults; decide⟩

/-- C3, counterexample.  The claim puts the host flag after the
architecture-conditional flags.  On the code the host flag is appended
before them: with a host triple and the fdpic hard-float target of
`cfgHostFdpic`, the emitted list has `--host=$host` immediately after the
base flags and before `--enable-fdpic`, while the spec's order puts it
last. -/
theorem c3_gcc_flag_order_counterexample :
    gccFlags cfgHostFdpic
        = gccBaseFlags ++ ["--host=$host", "--enable-fdpic", "--with-float=hard"]
      ∧ gccFlagsSpecOrder cfgHostFdpic
        = gccBaseFlags ++ ["--enable-fdpic", "--with-float=hard", "--host=$host"]
      ∧ gccFlags cfgHostFdpic ≠ gccFlagsSpecOrder cfgHostFdpic := by
  exact ⟨by decide, by decide, by decide⟩

/-- C3, amended.  The gcc configure-flag list is composed as: base flags,
then the host flag when a host triple is configured, then the
architecture-conditional flags derived from the ABI descriptor (in the
fixed order fdpic, x32, ppc64, mips, s390x, float-abi), then user-supplied
extra flags last. -/
theorem c3_gcc_flag_order (cfg : Config) :
    gccFlags cfg
      = gccBaseFlags
        ++ (if pyTruthy cfg.host then ["--host=$host"] else [])
        ++ archCondFlags (resolveTriple cfg.target)
        ++ extraSplit cfg.gccFlagsExtra := by
  unfold gccFlags archCondFlags resolveTriple
  by_cases h1 : (pyContains cfg.target "mips64" || pyContains cfg.target "mipsisa64") = true <;>
    by_cases h2 : pyContains cfg.target "n32" = true <;>
      by_cases h3 : pyEndsWith cfg.target "sf" = true <;>
        by_cases h4 : pyEndsWith cfg.target "hf" = true <;>
          simp [h1, h2, h3, h4, List.append_assoc]

set_option maxRecDepth 8000 in
/-- C5.  `isCross` is true exactly when no host triple was supplied, and
the musl configure command injects the in-tree stage-1 compiler (`xgcc`
with `-B` into the gcc build directory) exactly in that case; with a host
triple the installed cross-prefixed name `${target}-gcc` (with
`CROSS_COMPILE`) is used instead and `xgcc` does not occur in the
command. -/
theorem c5_is_cross_musl_cc (cfg : Config) :
    (is_cross cfg = true ↔ cfg.host = none)
      ∧ (cfg.host = none →
          muslConfigureEnvVars cfg
            = [ "LIBCC=\"$root_dir/$gcc_dir/$target/libgcc/libgcc.a\"",
                "CC=\"$root_dir/$gcc_dir/gcc/xgcc"
                  ++ (if cfg.isWindows then ".exe" else "")
                  ++ " -B $root_dir/$gcc_dir/gcc\"" ]
          ∧ pyContains ((lookupRule (ninja cfg) "configure-musl").getD "")
              "$root_dir/$gcc_dir/gcc/xgcc" = true)
      ∧ (∀ h, cfg.host = some h →
          muslConfigureEnvVars cfg
            = [ "LIBCC=\"$root_dir/$gcc_dir/$target/libgcc/libgcc.a\"",
                "CC=${target}-gcc", "CROSS_COMPILE=${target}-" ]
          ∧ pyContains ((lookupRule (ninja cfg) "configure-musl").getD "")
              "CC=${target}-gcc" = true
          ∧ pyContains ((lookupRule (ninja cfg) "configure-musl").getD "")
              "xgcc" = false) := by
  obtain ⟨f1, f2, f3, f4, f5, f6, f7, f8, f9, f10, f11, f12, f13, f14, f15,
    f16, f17, f18, f19, f20, f21, f22, f23, f24, f25, f26, f27, f28⟩ := cfg
  cases f3 with
  | none =>
      cases f27 <;>
        exact ⟨by simp [is_cross], fun _ => ⟨rfl, rfl⟩,
          fun h hh => Option.noConfusion hh⟩
  | some h0 =>
      cases f27 <;>
        exact ⟨by simp [is_cross], fun hh => Option.noConfusion hh,
          fun h hh => ⟨rfl, rfl, rfl⟩⟩

/-- C5 witness: the theorem evaluated at the cross configuration `cfgArm`
and at its variant with a host triple. -/
theorem c5_is_cross_musl_cc_witness :
    (muslConfigureEnvVars cfgArm
        = [ "LIBCC=\"$root_dir/$gcc_dir/$target/libgcc/libgcc.a\"",
            "CC=\"$root_dir/$gcc_dir/gcc/xgcc -B $root_dir/$gcc_dir/gcc\"" ]
      ∧ pyContains ((lookupRule (ninja cfgArm) "configure-musl").getD "")
          "$root_dir/$gcc_dir/gcc/xgcc" = true)
    ∧ (muslConfigureEnvVars { cfgArm with host := some "x86_64-linux-gnu" }
        = [ "LIBCC=\"$root_dir/$gcc_dir/$target/libgcc/libgcc.a\"",
            "CC=${target}-gcc", "CROSS_COMPILE=${target}-" ]
      ∧ pyContains ((lookupRule (ninja { cfgArm with host := some "x86_64-linux-gnu" })
            "configure-musl").getD "") "CC=${target}-gcc" = true
      ∧ pyContains ((lookupRule (ninja { cfgArm with host := some "x86_64-linux-gnu" })
            "configure-musl").getD "") "xgcc" = false) :=
  ⟨(c5_is_cross_musl_cc cfgArm).2.1 rfl,
   (c5_is_cross_musl_cc { cfgArm with host := some "x86_64-linux-gnu" }).2.2
     "x86_64-linux-gnu" rfl⟩

/-- C6.  The gcc configure node depends on the compiler's own extract node,
every dependency-relocation node (gmp, then isl exactly when ISL is
enabled, then mpc, mpfr) and the binutils build node, in that order; with
ISL enabled the graph additionally contains the ISL download, extract and
relocation nodes. -/
theorem c6_configure_gcc_deps (cfg : Config) :
    (findNode (ninja cfg) "$build_targets_dir/configure-gcc").map Node.implicit
        = some (if cfg.gccWithIsl then
            [ "$build_targets_dir/extract-gcc", "$build_targets_dir/move-gmp",
              "$build_targets_dir/move-isl", "$build_targets_dir/move-mpc",
              "$build_targets_dir/move-mpfr", "$build_targets_dir/build-binutils" ]
          else
            [ "$build_targets_dir/extract-gcc", "$build_targets_dir/move-gmp",
              "$build_targets_dir/move-mpc", "$build_targets_dir/move-mpfr",
              "$build_targets_dir/build-binutils" ])
      ∧ (cfg.gccWithIsl = true →
          (findNode (ninja cfg) "$isl_tarball").isSome = true
          ∧ (findNode (ninja cfg) "$build_targets_dir/extract-isl").isSome = true
          ∧ (findNode (ninja cfg) "$build_targets_dir/move-isl").isSome = true) := by
  obtain ⟨f1, f2, f3, f4, f5, f6, f7, f8, f9, f10, f11, f12, f13, f14, f15,
    f16, f17, f18, f19, f20, f21, f22, f23, f24, f25, f26, f27, f28⟩ := cfg
  cases f15 with
  | false => exact ⟨rfl, fun hh => Bool.noConfusion hh⟩
  | true => exact ⟨rfl, fun _ => ⟨rfl, rfl, rfl⟩⟩

/-- C6 witness: the ISL nodes exist in the graph of `cfgIsl`. -/
theorem c6_configure_gcc_deps_witness :
    (findNode (ninja cfgIsl) "$isl_tarball").isSome = true
      ∧ (findNode (ninja cfgIsl) "$build_targets_dir/extract-isl").isSome = true
      ∧ (findNode (ninja cfgIsl) "$build_targets_dir/move-isl").isSome = true :=
  (c6_configure_gcc_deps cfgIsl).2 rfl

set_option maxHeartbeats 1000000 in
/-- C7.  The kernel-headers nodes form the chain
extract-linux → build-linux (clean) → install-linux, and no dependency path
exists in either direction between any kernel-headers node and any
compiler or C-library node. -/
theorem c7_kernel_headers_independent (cfg : Config) :
    ((findNode (ninja cfg) "$build_targets_dir/build-linux").map Node.implicit
        = some ["$build_targets_dir/extract-linux"]
      ∧ (findNode (ninja cfg) "$build_targets_dir/install-linux").map Node.implicit
        = some ["$build_targets_dir/build-linux"]
      ∧ (findNode (ninja cfg) "$build_targets_dir/extract-linux").map Node.inputs
        = some ["$linux_tarball"])
    ∧ ∀ k ∈ kernelNodeNames, ∀ c ∈ gccMuslNodeNames,
        ¬ Reaches (ninja cfg).builds k c ∧ ¬ Reaches (ninja cfg).builds c k := by
  obtain ⟨f1, f2, f3, f4, f5, f6, f7, f8, f9, f10, f11, f12, f13, f14, f15,
    f16, f17, f18, f19, f20, f21, f22, f23, f24, f25, f26, f27, f28⟩ := cfg
  cases f15 <;> exact ⟨⟨rfl, rfl, rfl⟩, no_cross_paths _ rfl rfl⟩

/-- C7 witness: at `cfgArm`, the kernel-headers install node and the final
compiler build node are unreachable from each other. -/
theorem c7_kernel_headers_independent_witness :
    ¬ Reaches (ninja cfgArm).builds "$build_targets_dir/install-linux"
        "$build_targets_dir/build-gcc"
      ∧ ¬ Reaches (ninja cfgArm).builds "$build_targets_dir/build-gcc"
        "$build_targets_dir/install-linux" :=
  ⟨((c7_kernel_headers_independent cfgArm).2 "$build_targets_dir/install-linux"
      (by decide) "$build_targets_dir/build-gcc" (by decide)).1,
   ((c7_kernel_headers_independent cfgArm).2 "$build_targets_dir/install-linux"
      (by decide) "$build_targets_dir/build-gcc" (by decide)).2⟩

/-- C8.  The patch catalog returns an empty result (not an error) when the
deterministic patch directory does not exist — and then the extract node's
patch command is the no-op `true`; when the directory exists it returns
every file directly contained in it, in listing order, each prefixed with
the patch directory path; and an existing patch directory with zero files
also yields the no-op patch command. -/
theorem c8_patch_catalog :
    (∀ fs n v, fs (patchPath n v) = none →
        patchExists fs n v = false ∧ patchCommand false fs n v = "true")
    ∧ (∀ fs n v l, fs (patchPath n v) = some l →
        patchExists fs n v = true
        ∧ patchFiles fs n v = l.map (fun i => patchPath n v ++ "/" ++ i))
    ∧ (∀ fs n v, fs (patchPath n v) = some [] →
        patchCommand false fs n v = "true") := by
  refine ⟨fun fs n v h => ?_, fun fs n v l h => ?_, fun fs n v h => ?_⟩
  · constructor
    · simp [patchExists, h]
    · simp [patchCommand, patchExists, h]
  · constructor
    · simp [patchExists, h]
    · simp [patchFiles, h]
  · simp [patchCommand, patchExists, patchFiles, h]

/-- Filesystem oracle where the musl 1.2.4 patch directory exists with two
patch files. -/
def fsTwoPatches : String → Option (List String) := fun p =>
  if p = patchPath "musl" "1.2.4" then some ["fix-a.patch", "fix-b.patch"] else none

/-- Filesystem oracle where the musl 1.2.4 patch directory exists but is
empty. -/
def fsEmptyPatchDir : String → Option (List String) := fun p =>
  if p = patchPath "musl" "1.2.4" then some [] else none

/-- C8 witness: the three cases evaluated at concrete oracles. -/
theorem c8_patch_catalog_witness :
    (patchExists emptyFs "musl" "1.2.4" = false
        ∧ patchCommand false emptyFs "musl" "1.2.4" = "true")
      ∧ (patchExists fsTwoPatches "musl" "1.2.4" = true
        ∧ patchFiles fsTwoPatches "musl" "1.2.4"
          = ["fix-a.patch", "fix-b.patch"].map
              (fun i => patchPath "musl" "1.2.4" ++ "/" ++ i))
      ∧ patchCommand false fsEmptyPatchDir "musl" "1.2.4" = "true" :=
  ⟨c8_patch_catalog.1 emptyFs "musl" "1.2.4" rfl,
   c8_patch_catalog.2.1 fsTwoPatches "musl" "1.2.4" ["fix-a.patch", "fix-b.patch"]
     (by simp [fsTwoPatches]),
   c8_patch_catalog.2.2 fsEmptyPatchDir "musl" "1.2.4" (by simp [fsEmptyPatchDir])⟩

/-- C9.  When no host triple is configured, `try_get_tools` overwrites the
host compiler identifiers with the build ones — the result does not depend
on the supplied `--cc`/`--cxx` values at all — and the probe sequence
contains no host-compiler check: only the two build compilers, the optional
cache probes, the make chain and curl/patch/tar. -/
theorem c9_host_compiler_overwrite (cfg : Config) (which : String → Bool)
    (cc' cxx' : String) (h : cfg.host = none) :
    tryGetTools { cfg with cc := cc', cxx := cxx' } which = tryGetTools cfg which
      ∧ (tryGetTools cfg which).cc = (tryGetTools cfg which).ccBuild
      ∧ (tryGetTools cfg which).cxx = (tryGetTools cfg which).cxxBuild
      ∧ (tryGetTools cfg which).checks
        = [cfg.ccBuild, cfg.cxxBuild]
          ++ (if cfg.enableCache then cacheChecks which else [])
          ++ makeChecks which ++ ["curl", "patch", "tar"] := by
  obtain ⟨f1, f2, f3, f4, f5, f6, f7, f8, f9, f10, f11, f12, f13, f14, f15,
    f16, f17, f18, f19, f20, f21, f22, f23, f24, f25, f26, f27, f28⟩ := cfg
  cases h
  cases f12 <;>
    by_cases hc : which "ccache" = true <;>
      by_cases hs : which "sccache" = true <;>
        by_cases hm : which "make" = true <;>
          by_cases hg : which "gmake" = true <;>
            by_cases hw : which "mingw32-make" = true <;>
              simp [tryGetTools, cacheChecks, makeChecks, pyTruthy,
                hc, hs, hm, hg, hw]

/-- An oracle under which every tool exists. -/
def whichAll : String → Bool := fun _ => true

/-- C9 witness: with no host triple, replacing `--cc`/`--cxx` does not
change the result, and the resolved host compilers equal the build ones. -/
theorem c9_host_compiler_overwrite_witness :
    tryGetTools { cfgArm with cc := "my-cc", cxx := "my-cxx" } whichAll
        = tryGetTools cfgArm whichAll
      ∧ (tryGetTools cfgArm whichAll).cc = (tryGetTools cfgArm whichAll).ccBuild
      ∧ (tryGetTools cfgArm whichAll).cxx = (tryGetTools cfgArm whichAll).cxxBuild
      ∧ (tryGetTools cfgArm whichAll).checks
        = [cfgArm.ccBuild, cfgArm.cxxBuild]
          ++ (if cfgArm.enableCache then cacheChecks whichAll else [])
          ++ makeChecks whichAll ++ ["curl", "patch", "tar"] :=
  c9_host_compiler_overwrite cfgArm whichAll "my-cc" "my-cxx" rfl

/-- C10.  With the cache wrapper enabled: the `failed` outcome is the same
as without it (a missing wrapper is never a missing-tool failure); the
probe sequence consults `sccache` only when `ccache` is absent; when
`ccache` is present it is prepended to all four compiler identifiers; when
only `sccache` is present that one is; when neither is present all four
identifiers are left unwrapped. -/
theorem c10_cache_wrapper (cfg : Config) (which : String → Bool)
    (h : cfg.enableCache = true) :
    (tryGetTools cfg which).failed
        = (tryGetTools { cfg with enableCache := false } which).failed
      ∧ (tryGetTools cfg which).checks = expectedChecks cfg which
      ∧ (which "ccache" = true →
          cacheChecks which = ["ccache"]
          ∧ (tryGetTools cfg which).cc = "ccache " ++ resolvedCC cfg
          ∧ (tryGetTools cfg which).cxx = "ccache " ++ resolvedCXX cfg
          ∧ (tryGetTools cfg which).ccBuild = "ccache " ++ cfg.ccBuild
          ∧ (tryGetTools cfg which).cxxBuild = "ccache " ++ cfg.cxxBuild)
      ∧ (which "ccache" = false → which "sccache" = true →
          cacheChecks which = ["ccache", "sccache"]
          ∧ (tryGetTools cfg which).cc = "sccache " ++ resolvedCC cfg
          ∧ (tryGetTools cfg which).cxx = "sccache " ++ resolvedCXX cfg
          ∧ (tryGetTools cfg which).ccBuild = "sccache " ++ cfg.ccBuild
          ∧ (tryGetTools cfg which).cxxBuild = "sccache " ++ cfg.cxxBuild)
      ∧ (which "ccache" = false → which "sccache" = false →
          (tryGetTools cfg which).cc = resolvedCC cfg
          ∧ (tryGetTools cfg which).cxx = resolvedCXX cfg
          ∧ (tryGetTools cfg which).ccBuild = cfg.ccBuild
          ∧ (tryGetTools cfg which).cxxBuild = cfg.cxxBuild) := by
  obtain ⟨f1, f2, f3, f4, f5, f6, f7, f8, f9, f10, f11, f12, f13, f14, f15,
    f16, f17, f18, f19, f20, f21, f22, f23, f24, f25, f26, f27, f28⟩ := cfg
  cases h
  by_cases hh : pyTruthy f3 = true <;>
    by_cases hc : which "ccache" = true <;>
      by_cases hs : which "sccache" = true <;>
        by_cases hm : which "make" = true <;>
          by_cases hg : which "gmake" = true <;>
            by_cases hw : which "mingw32-make" = true <;>
              simp [tryGetTools, expectedChecks, resolvedCC, resolvedCXX,
                cacheChecks, makeChecks, hh, hc, hs, hm, hg, hw]

/-- C10 witness: with every tool present, `ccache` wins and is prepended to
all four compiler identifiers. -/
theorem c10_cache_wrapper_witness :
    ((tryGetTools { cfgArm with enableCache := true } whichAll).failed
        = (tryGetTools { { cfgArm with enableCache := true } with
            enableCache := false } whichAll).failed)
      ∧ (cacheChecks whichAll = ["ccache"]
        ∧ (tryGetTools { cfgArm with enableCache := true } whichAll).cc
          = "ccache " ++ resolvedCC { cfgArm with enableCache := true }
        ∧ (tryGetTools { cfgArm with enableCache := true } whichAll).cxx
          = "ccache " ++ resolvedCXX { cfgArm with enableCache := true }
        ∧ (tryGetTools { cfgArm with enableCache := true } whichAll).ccBuild
          = "ccache " ++ Config.ccBuild { cfgArm with enableCache := true }
        ∧ (tryGetTools { cfgArm with enableCache := true } whichAll).cxxBuild
          = "ccache " ++ Config.cxxBuild { cfgArm with enableCache := true }) :=
  ⟨(c10_cache_wrapper { cfgArm with enableCache := true } whichAll rfl).1,
   (c10_cache_wrapper { cfgArm with enableCache := true } whichAll rfl).2.2.1 rfl⟩

end MuslToolchains
